import Mathlib

/-!
Shallow embedding of the KVCore API client library (JavaScript) in Lean 4.

The embedding covers:
* the constants module (lead-status table, call-result codes, call
  directions, search-alert numbers, and the helper/validator functions);
* the Axios-style transport layer with its response interceptor that
  normalizes errors (non-2xx response, request-sent-no-response, setup
  failure);
* the `KVCoreClient` constructor with its config defaulting and the
  debug flag;
* the resource mediators (`ContactsAPI`, `NotesAPI`, `CallsAPI`,
  `SearchAlertsAPI`, `MiscAPI`), each operation modelled as a function
  from a stub transport to a result together with the list of requests
  actually issued (so that "zero network calls" is expressible).

JavaScript truthiness is modelled explicitly: a number is falsy exactly
when it is 0, a string exactly when it is empty, and `undefined` is
falsy.  The `a || b` defaulting idiom and the `a && b` guard idiom are
translated through these truthiness functions.
-/

/-- A JavaScript value, restricted to the shapes the claims need:
numbers, strings and `undefined`.  Distinguishing numbers from strings
matters because reverse lookup over an object returns key *strings*. -/
inductive JSVal where
  | num (n : Int)
  | str (s : String)
  | undef
  deriving DecidableEq, Repr

/-- JS truthiness: 0, the empty string and `undefined` are falsy. -/
def jsTruthy : JSVal → Bool
  | JSVal.num n => !(n == 0)
  | JSVal.str s => !(s == "")
  | JSVal.undef => false

/-- Truthiness of an optional number field (`undefined` when absent). -/
def jsTruthyIntOpt : Option Int → Bool
  | some n => !(n == 0)
  | none => false

/-- Truthiness of an optional string field (`undefined` when absent). -/
def jsTruthyStrOpt : Option String → Bool
  | some s => !(s == "")
  | none => false

/-- The underlying value of an optional number field; the default branch
is only reached when the field is absent. -/
def optIntValue : Option Int → Int
  | some n => n
  | none => 0

/-- The underlying value of an optional string field. -/
def optStrValue : Option String → String
  | some s => s
  | none => ""

/-- The JS `a || b` idiom on an optional string: the fallback is used
when the field is absent or empty (falsy). -/
def jsOrStr (v : Option String) (fallback : String) : String :=
  match v with
  | some s => if s = "" then fallback else s
  | none => fallback

/-- The JS `a || b` idiom on an optional number: the fallback is used
when the field is absent or 0 (falsy). -/
def jsOrInt (v : Option Int) (fallback : Int) : Int :=
  match v with
  | some n => if n = 0 then fallback else n
  | none => fallback

/-- Property access on a JS object coerces the key to a string. -/
def jsPropKey : JSVal → String
  | JSVal.num n => toString n
  | JSVal.str s => s
  | JSVal.undef => "undefined"

/-- JS strict equality `===` on the modelled values: never equates
values of different types. -/
def jsStrictEq : JSVal → JSVal → Bool
  | JSVal.num a, JSVal.num b => a == b
  | JSVal.str a, JSVal.str b => a == b
  | JSVal.undef, JSVal.undef => true
  | _, _ => false

/-- The `LEAD_STATUS` object from the constants module.  JS object keys
are strings; `Object.keys` enumerates integer-like keys in ascending
numeric order, which for this table is the literal order below. -/
def LEAD_STATUS : List (String × String) :=
  [("0", "New"), ("1", "Client"), ("2", "Closed"), ("3", "Sphere"),
   ("4", "Active"), ("5", "Contract"), ("6", "Archived"), ("7", "Prospect")]

/-- The `CALL_RESULT` object: valid call result codes and their labels. -/
def CALL_RESULT : List (Int × String) :=
  [(1, "Bad Number"), (2, "Not Home"), (3, "Contacted")]

/-- The `CALL_DIRECTION` array. -/
def CALL_DIRECTION : List String := ["outbound", "inbound"]

/-- The `SEARCH_ALERT_NUMBER` array. -/
def SEARCH_ALERT_NUMBER : List Int := [1, 2]

/-- `getLeadStatusName(code)`: property access `LEAD_STATUS[code]`,
returning the label or `undefined`. -/
def getLeadStatusName (code : JSVal) : JSVal :=
  match LEAD_STATUS.find? (fun p => p.1 == jsPropKey code) with
  | some p => JSVal.str p.2
  | none => JSVal.undef

/-- `getLeadStatusCode(name)`:
`Object.keys(LEAD_STATUS).find(key => LEAD_STATUS[key] === name)`.
The result, when found, is the key *string*, or `undefined`. -/
def getLeadStatusCode (name : JSVal) : JSVal :=
  match LEAD_STATUS.find? (fun p => jsStrictEq (JSVal.str p.2) name) with
  | some p => JSVal.str p.1
  | none => JSVal.undef

/-- `isValidCallResult(code)`: `code in CALL_RESULT` (key membership). -/
def isValidCallResult (code : Int) : Bool :=
  (CALL_RESULT.find? (fun p => p.1 == code)).isSome

/-- `isValidCallDirection(direction)`: array membership. -/
def isValidCallDirection (direction : String) : Bool :=
  CALL_DIRECTION.contains direction

/-- `isValidSearchAlertNumber(number)`: array membership via `includes`. -/
def isValidSearchAlertNumber (number : Int) : Bool :=
  SEARCH_ALERT_NUMBER.contains number

/-- HTTP method of an outbound request. -/
inductive Method where
  | get | post | put | delete
  deriving DecidableEq, Repr

/-- The email payload `{subject, message}` of `contacts.sendEmail`. -/
structure EmailData where
  subject : String
  message : String
  deriving DecidableEq, Repr

/-- The call-log payload of `calls.create`/`calls.update`.  Only the two
validated fields are structured; the remaining pass-through fields
(`date`, `recording_url`, `action_owner_user_id`, `notes`) are kept as
an uninterpreted association list. -/
structure CallData where
  result : Option Int
  direction : Option String
  extra : List (String × JSVal) := []
  deriving DecidableEq, Repr

/-- The search-alert payload of `searchAlerts.create`.  Only the
validated `number` field is structured. -/
structure AlertData where
  number : Option Int
  extra : List (String × JSVal) := []
  deriving DecidableEq, Repr

/-- The payload of `misc.scheduleCall`; `leadId` is checked for
truthiness before the request is sent. -/
structure ScheduleCallData where
  leadId : JSVal
  extra : List (String × JSVal) := []
  deriving DecidableEq, Repr

/-- The payload of `misc.addListingView`; `lead_id` and `mls_id` are
checked for truthiness before the request is sent. -/
structure ListingViewData where
  lead_id : JSVal
  mls_id : JSVal
  extra : List (String × JSVal) := []
  deriving DecidableEq, Repr

/-- The body attached to an outbound request. -/
inductive ReqBody where
  | empty
  | json (v : JSVal)
  | call (c : CallData)
  | alert (a : AlertData)
  | email (e : EmailData)
  | schedule (s : ScheduleCallData)
  | view (v : ListingViewData)
  deriving DecidableEq, Repr

/-- One outbound HTTP request as handed to the transport. -/
structure Request where
  method : Method
  url : String
  body : ReqBody := ReqBody.empty
  params : Option JSVal := none
  deriving DecidableEq, Repr

/-- The body of an upstream error response; the interceptor inspects
its `message` and `error` fields. -/
structure ResponseBody where
  message : Option String := none
  error : Option String := none
  deriving DecidableEq, Repr

/-- Outcome of one transport invocation, mirroring the three Axios
error cases: the upstream responded with a non-2xx status
(`error.response`), the request was sent but no response arrived
(`error.request`), or the request could not be set up at all. -/
inductive TransportResult where
  | success (data : JSVal)
  | errorResponse (status : Nat) (data : ResponseBody) (origMessage : String)
  | errorRequest (origMessage : String)
  | errorSetup (message : String)
  deriving DecidableEq, Repr

/-- A stub transport: what the HTTP layer does for each request. -/
abbrev Transport := Request → TransportResult

/-- The normalized error produced by the response interceptor:
`message`, `statusCode` and the optional `responseData`. -/
structure NormalizedError where
  message : String
  statusCode : Nat
  responseData : Option ResponseBody := none
  deriving DecidableEq, Repr

/-- Fixed message for the request-sent-no-response case. -/
def noResponseMessage : String := "No response received from KVCore API"

/-- The response interceptor of the client: passes successes through and
normalizes the three failure cases.  For a non-2xx response the message
is `data.message || data.error || error.message` with status and body
attached; for a sent-but-unanswered request the message is the fixed
string and the status 503; otherwise the status is 500. -/
def interceptResponse : TransportResult → Except NormalizedError JSVal
  | TransportResult.success d => Except.ok d
  | TransportResult.errorResponse status data orig =>
      Except.error
        { message := jsOrStr data.message (jsOrStr data.error orig)
          statusCode := status
          responseData := some data }
  | TransportResult.errorRequest _ =>
      Except.error { message := noResponseMessage, statusCode := 503 }
  | TransportResult.errorSetup msg =>
      Except.error { message := msg, statusCode := 500 }

/-- An error surfaced by a mediator operation: either a validation
error raised before any network call, or a normalized transport error. -/
inductive APIError where
  | validation (msg : String)
  | http (e : NormalizedError)
  deriving DecidableEq, Repr

/-- Result of one mediator operation: the settled value or error,
together with the list of requests actually handed to the transport. -/
abbrev OpResult := Except APIError JSVal × List Request

/-- Issue one request through the transport and the interceptor,
recording the request. -/
def performRequest (t : Transport) (req : Request) : OpResult :=
  match interceptResponse (t req) with
  | Except.ok d => (Except.ok d, [req])
  | Except.error e => (Except.error (APIError.http e), [req])

/-- Build the `/contact/<id>...` path. -/
def contactPath (contactId : Int) (rest : String) : String :=
  "/contact/" ++ toString contactId ++ rest

/-- Error message thrown for an invalid call result code. -/
def invalidCallResultMessage : String :=
  "Invalid call result code. Must be 1 (Bad Number), 2 (Not Home), or 3 (Contacted)"

/-- Error message thrown for an invalid call direction. -/
def invalidCallDirectionMessage : String :=
  "Invalid call direction. Must be \"outbound\" or \"inbound\""

/-- Error message thrown for an invalid search alert number. -/
def invalidAlertNumberMessage : String :=
  "Invalid alert number. Must be 1 or 2"

/-- The validation block shared verbatim by `calls.create` and
`calls.update`: `callData.result && !isValidCallResult(callData.result)`
throws, then the same guard for `direction`.  Returns the error message
thrown, if any. -/
def CallsAPI.validateCallData (callData : CallData) : Option String :=
  if jsTruthyIntOpt callData.result &&
      !isValidCallResult (optIntValue callData.result) then
    some invalidCallResultMessage
  else if jsTruthyStrOpt callData.direction &&
      !isValidCallDirection (optStrValue callData.direction) then
    some invalidCallDirectionMessage
  else
    none

/-- `calls.list(contactId)`. -/
def CallsAPI.list (t : Transport) (contactId : Int) : OpResult :=
  performRequest t { method := Method.get, url := contactPath contactId ("/action/call") }

/-- `calls.get(contactId, actionId)`. -/
def CallsAPI.get (t : Transport) (contactId actionId : Int) : OpResult :=
  performRequest t
    { method := Method.get
      url := contactPath contactId ("/action/call/" ++ toString actionId) }

/-- `calls.create(contactId, callData)`: validates, then PUTs. -/
def CallsAPI.create (t : Transport) (contactId : Int) (callData : CallData) : OpResult :=
  match CallsAPI.validateCallData callData with
  | some msg => (Except.error (APIError.validation msg), [])
  | none =>
      performRequest t
        { method := Method.put
          url := contactPath contactId ("/action/call")
          body := ReqBody.call callData }

/-- `calls.update(contactId, actionId, callData)`: validates, then PUTs. -/
def CallsAPI.update (t : Transport) (contactId actionId : Int) (callData : CallData) :
    OpResult :=
  match CallsAPI.validateCallData callData with
  | some msg => (Except.error (APIError.validation msg), [])
  | none =>
      performRequest t
        { method := Method.put
          url := contactPath contactId ("/action/call/" ++ toString actionId)
          body := ReqBody.call callData }

/-- `searchAlerts.list(contactId)`. -/
def SearchAlertsAPI.list (t : Transport) (contactId : Int) : OpResult :=
  performRequest t { method := Method.get, url := contactPath contactId ("/searchalert") }

/-- `searchAlerts.create(contactId, alertData)`: throws when
`!alertData.number || !isValidSearchAlertNumber(alertData.number)`. -/
def SearchAlertsAPI.create (t : Transport) (contactId : Int) (alertData : AlertData) :
    OpResult :=
  if !jsTruthyIntOpt alertData.number ||
      !isValidSearchAlertNumber (optIntValue alertData.number) then
    (Except.error (APIError.validation invalidAlertNumberMessage), [])
  else
    performRequest t
      { method := Method.post
        url := contactPath contactId ("/searchalert")
        body := ReqBody.alert alertData }

/-- `searchAlerts.update(contactId, alertNumber, alertData)`. -/
def SearchAlertsAPI.update (t : Transport) (contactId alertNumber : Int)
    (alertData : AlertData) : OpResult :=
  if !isValidSearchAlertNumber alertNumber then
    (Except.error (APIError.validation invalidAlertNumberMessage), [])
  else
    performRequest t
      { method := Method.put
        url := contactPath contactId ("/searchalert/" ++ toString alertNumber)
        body := ReqBody.alert alertData }

/-- `searchAlerts.delete(contactId, alertNumber)`. -/
def SearchAlertsAPI.delete (t : Transport) (contactId alertNumber : Int) : OpResult :=
  if !isValidSearchAlertNumber alertNumber then
    (Except.error (APIError.validation invalidAlertNumberMessage), [])
  else
    performRequest t
      { method := Method.delete
        url := contactPath contactId ("/searchalert/" ++ toString alertNumber) }

/-- `searchAlerts.send(contactId, alertNumber)`. -/
def SearchAlertsAPI.send (t : Transport) (contactId alertNumber : Int) : OpResult :=
  if !isValidSearchAlertNumber alertNumber then
    (Except.error (APIError.validation invalidAlertNumberMessage), [])
  else
    performRequest t
      { method := Method.post
        url := contactPath contactId ("/searchalert/" ++ toString alertNumber ++ "/send") }

/-- `searchAlerts.getRecent(contactId, alertNumber)`. -/
def SearchAlertsAPI.getRecent (t : Transport) (contactId alertNumber : Int) : OpResult :=
  if !isValidSearchAlertNumber alertNumber then
    (Except.error (APIError.validation invalidAlertNumberMessage), [])
  else
    performRequest t
      { method := Method.get
        url := contactPath contactId ("/searchalert/" ++ toString alertNumber ++ "/recent") }

/-- `contacts.list(filters)`: GET `/contacts` with query params. -/
def ContactsAPI.list (t : Transport) (filters : JSVal) : OpResult :=
  performRequest t { method := Method.get, url := "/contacts", params := some filters }

/-- `contacts.get(contactId)`. -/
def ContactsAPI.get (t : Transport) (contactId : Int) : OpResult :=
  performRequest t { method := Method.get, url := contactPath contactId ("") }

/-- `contacts.create(contactData)`. -/
def ContactsAPI.create (t : Transport) (contactData : JSVal) : OpResult :=
  performRequest t { method := Method.post, url := "/contact", body := ReqBody.json contactData }

/-- `contacts.update(contactId, contactData)`. -/
def ContactsAPI.update (t : Transport) (contactId : Int) (contactData : JSVal) : OpResult :=
  performRequest t
    { method := Method.put, url := contactPath contactId (""), body := ReqBody.json contactData }

/-- `contacts.delete(contactId)`: note the trailing slash in the path. -/
def ContactsAPI.delete (t : Transport) (contactId : Int) : OpResult :=
  performRequest t { method := Method.delete, url := contactPath contactId ("/") }

/-- `contacts.getTags(contactId)`. -/
def ContactsAPI.getTags (t : Transport) (contactId : Int) : OpResult :=
  performRequest t { method := Method.get, url := contactPath contactId ("/tags") }

/-- `contacts.addTags(contactId, tags)`. -/
def ContactsAPI.addTags (t : Transport) (contactId : Int) (tags : JSVal) : OpResult :=
  performRequest t
    { method := Method.put, url := contactPath contactId ("/tags"), body := ReqBody.json tags }

/-- `contacts.removeTags(contactId, tagNames)`: DELETE with a body. -/
def ContactsAPI.removeTags (t : Transport) (contactId : Int) (tagNames : JSVal) : OpResult :=
  performRequest t
    { method := Method.delete
      url := contactPath contactId ("/tags")
      body := ReqBody.json tagNames }

/-- `contacts.getListingViews(contactId)`. -/
def ContactsAPI.getListingViews (t : Transport) (contactId : Int) : OpResult :=
  performRequest t { method := Method.get, url := contactPath contactId ("/listingviews") }

/-- `contacts.getMarketReports(contactId)`. -/
def ContactsAPI.getMarketReports (t : Transport) (contactId : Int) : OpResult :=
  performRequest t { method := Method.get, url := contactPath contactId ("/marketreport") }

/-- `contacts.sendEmail(contactId, emailData)`: PUT `/contact/<id>/email`. -/
def ContactsAPI.sendEmail (t : Transport) (contactId : Int) (emailData : EmailData) :
    OpResult :=
  performRequest t
    { method := Method.put
      url := contactPath contactId ("/email")
      body := ReqBody.email emailData }

/-- `contacts.sendText(contactId, textData)`. -/
def ContactsAPI.sendText (t : Transport) (contactId : Int) (textData : JSVal) : OpResult :=
  performRequest t
    { method := Method.put, url := contactPath contactId ("/text"), body := ReqBody.json textData }

/-- `contacts.askQuestion(contactId, questionData)`. -/
def ContactsAPI.askQuestion (t : Transport) (contactId : Int) (questionData : JSVal) :
    OpResult :=
  performRequest t
    { method := Method.post
      url := contactPath contactId ("/question")
      body := ReqBody.json questionData }

/-- `contacts.requestAppointment(contactId, appointmentData)`. -/
def ContactsAPI.requestAppointment (t : Transport) (contactId : Int)
    (appointmentData : JSVal) : OpResult :=
  performRequest t
    { method := Method.post
      url := contactPath contactId ("/appointment")
      body := ReqBody.json appointmentData }

/-- `notes.list(contactId)`. -/
def NotesAPI.list (t : Transport) (contactId : Int) : OpResult :=
  performRequest t { method := Method.get, url := contactPath contactId ("/action/note") }

/-- `notes.get(contactId, actionId)`. -/
def NotesAPI.get (t : Transport) (contactId actionId : Int) : OpResult :=
  performRequest t
    { method := Method.get
      url := contactPath contactId ("/action/note/" ++ toString actionId) }

/-- `notes.create(contactId, noteData)`. -/
def NotesAPI.create (t : Transport) (contactId : Int) (noteData : JSVal) : OpResult :=
  performRequest t
    { method := Method.put
      url := contactPath contactId ("/action/note")
      body := ReqBody.json noteData }

/-- `notes.update(contactId, actionId, noteData)`. -/
def NotesAPI.update (t : Transport) (contactId actionId : Int) (noteData : JSVal) : OpResult :=
  performRequest t
    { method := Method.put
      url := contactPath contactId ("/action/note/" ++ toString actionId)
      body := ReqBody.json noteData }

/-- Error message thrown by `misc.scheduleCall` for a falsy `leadId`. -/
def leadIdRequiredMessage : String := "leadId is required"

/-- Error message thrown by `misc.addListingView` for a falsy `lead_id`. -/
def leadUnderscoreIdRequiredMessage : String := "lead_id is required"

/-- Error message thrown by `misc.addListingView` for a falsy `mls_id`. -/
def mlsIdRequiredMessage : String := "mls_id is required"

/-- `misc.scheduleCall(callData)`: requires a truthy `leadId`. -/
def MiscAPI.scheduleCall (t : Transport) (callData : ScheduleCallData) : OpResult :=
  if !jsTruthy callData.leadId then
    (Except.error (APIError.validation leadIdRequiredMessage), [])
  else
    performRequest t
      { method := Method.post, url := "/schedule-call", body := ReqBody.schedule callData }

/-- `misc.addListingView(viewData)`: requires truthy `lead_id` and `mls_id`. -/
def MiscAPI.addListingView (t : Transport) (viewData : ListingViewData) : OpResult :=
  if !jsTruthy viewData.lead_id then
    (Except.error (APIError.validation leadUnderscoreIdRequiredMessage), [])
  else if !jsTruthy viewData.mls_id then
    (Except.error (APIError.validation mlsIdRequiredMessage), [])
  else
    performRequest t { method := Method.post, url := "/views", body := ReqBody.view viewData }

/-- Default base URL baked into the client constructor. -/
def DEFAULT_BASE_URL : String := "https://api.kvcore.com/v2/public"

/-- Message of the error thrown when `bearerToken` is falsy. -/
def bearerTokenRequiredMessage : String := "bearerToken is required"

/-- The config object passed to the `KVCoreClient` constructor; every
field may be absent. -/
structure ClientConfigInput where
  baseURL : Option String := none
  timeout : Option Int := none
  bearerToken : Option String := none
  deriving DecidableEq, Repr

/-- The resolved `this.config` stored by the constructor. -/
structure ClientConfig where
  baseURL : String
  timeout : Int
  bearerToken : String
  deriving DecidableEq, Repr

/-- The observable state of a constructed client: its resolved config
and the mutable debug flag. -/
structure KVCoreClient where
  config : ClientConfig
  debug : Bool
  deriving DecidableEq, Repr

/-- The `KVCoreClient` constructor: throws when `!config.bearerToken`,
otherwise resolves `baseURL` and `timeout` with `||` defaulting and
initializes the debug flag to `false`. -/
def KVCoreClient.make (config : ClientConfigInput) : Except String KVCoreClient :=
  if !jsTruthyStrOpt config.bearerToken then
    Except.error bearerTokenRequiredMessage
  else
    Except.ok
      { config :=
          { baseURL := jsOrStr config.baseURL DEFAULT_BASE_URL
            timeout := jsOrInt config.timeout 30000
            bearerToken := optStrValue config.bearerToken }
        debug := false }

/-- `enableDebug()`: sets the debug flag. -/
def KVCoreClient.enableDebug (c : KVCoreClient) : KVCoreClient :=
  { c with debug := true }

/-- `disableDebug()`: clears the debug flag. -/
def KVCoreClient.disableDebug (c : KVCoreClient) : KVCoreClient :=
  { c with debug := false }

/-- Whether an operation outcome is a validation failure raised before
any network call: a validation error together with an empty request log. -/
def rejectsValidationNoNetwork (r : OpResult) : Bool :=
  (match r.1 with
   | Except.error (APIError.validation _) => true
   | _ => false) && r.2.isEmpty

/-- The normalized error for the request-sent-no-response case. -/
def noResponseError : NormalizedError :=
  { message := noResponseMessage, statusCode := 503 }

/-- A stub transport on which every request fails with the
request-sent-no-response condition. -/
def noResponseTransport (orig : String) : Transport :=
  fun _ => TransportResult.errorRequest orig

/-- A stub transport on which every request succeeds with a fixed
payload. -/
def okTransport (payload : JSVal) : Transport :=
  fun _ => TransportResult.success payload

/-- Whether an operation outcome is a rejection with the normalized
request-sent-no-response error. -/
def rejectsNoResponse503 (r : OpResult) : Prop :=
  r.1 = Except.error (APIError.http noResponseError)

deriving instance DecidableEq for Except

/-- Helper: the labels (values) of the lead-status table. -/
def leadStatusLabels : List String := LEAD_STATUS.map Prod.snd

/-- Claim C3: for every label present as a value in the `LEAD_STATUS`
table, reverse lookup followed by forward lookup is the identity:
`getLeadStatusName (getLeadStatusCode label) = label`. -/
theorem C3_lead_status_roundtrip (label : String)
    (h : label ∈ leadStatusLabels) :
    getLeadStatusName (getLeadStatusCode (JSVal.str label)) = JSVal.str label := by
  have hall : ∀ l ∈ leadStatusLabels,
      getLeadStatusName (getLeadStatusCode (JSVal.str l)) = JSVal.str l := by decide
  exact hall label h

/-- Witness for C3 at the label `Sphere`. -/
theorem C3_lead_status_roundtrip_witness :
    getLeadStatusName (getLeadStatusCode (JSVal.str ("Sphere"))) = JSVal.str ("Sphere") :=
  C3_lead_status_roundtrip ("Sphere") (by decide)

/-- Claim C9: for every key of `LEAD_STATUS`, reverse lookup of its
label returns the key as the key *string* (e.g. `"3"`), never as a
numeric value. -/
theorem C9_reverse_lookup_key_string (key label : String)
    (h : (key, label) ∈ LEAD_STATUS) :
    getLeadStatusCode (JSVal.str label) = JSVal.str key ∧
    ∀ n : Int, getLeadStatusCode (JSVal.str label) ≠ JSVal.num n := by
  have h1 : getLeadStatusCode (JSVal.str label) = JSVal.str key := by
    have hall : ∀ p ∈ LEAD_STATUS,
        getLeadStatusCode (JSVal.str p.2) = JSVal.str p.1 := by decide
    exact hall (key, label) h
  refine ⟨h1, fun n => ?_⟩
  rw [h1]
  simp

/-- Witness for C9 at the entry `("3", "Sphere")`. -/
theorem C9_reverse_lookup_key_string_witness :
    getLeadStatusCode (JSVal.str ("Sphere")) = JSVal.str ("3") ∧
    getLeadStatusCode (JSVal.str ("Sphere")) ≠ JSVal.num 3 :=
  ⟨(C9_reverse_lookup_key_string ("3") ("Sphere") (by decide)).1,
   (C9_reverse_lookup_key_string ("3") ("Sphere") (by decide)).2 3⟩

/-- Claim C1 as stated: for every call-result code not in {1,2,3},
`calls.create`/`calls.update` with that code fail with a validation
error and zero network calls.  False: the guard
`callData.result && !isValidCallResult(...)` skips validation when the
code is 0 (falsy), so the request is sent. -/
theorem C1_counterexample :
    ¬ (∀ (t : Transport) (contactId actionId code : Int) (callData : CallData),
        callData.result = some code →
        code ≠ 1 → code ≠ 2 → code ≠ 3 →
        rejectsValidationNoNetwork (CallsAPI.create t contactId callData) = true ∧
        rejectsValidationNoNetwork (CallsAPI.update t contactId actionId callData) = true) := by
  intro h
  have h0 := (h (okTransport JSVal.undef) 1 2 0 { result := some 0, direction := none }
    rfl (by decide) (by decide) (by decide)).1
  exact absurd h0 (by decide)

/-- Claim C1 amended: for every *nonzero* call-result code not in
{1,2,3}, `calls.create` and `calls.update` with that code fail with a
validation error and perform zero network calls. -/
theorem C1_amended_nonzero_invalid_result (t : Transport) (contactId actionId code : Int)
    (callData : CallData) (hres : callData.result = some code) (hnz : code ≠ 0)
    (h1 : code ≠ 1) (h2 : code ≠ 2) (h3 : code ≠ 3) :
    rejectsValidationNoNetwork (CallsAPI.create t contactId callData) = true ∧
    rejectsValidationNoNetwork (CallsAPI.update t contactId actionId callData) = true := by
  have hval : CallsAPI.validateCallData callData = some invalidCallResultMessage := by
    unfold CallsAPI.validateCallData
    rw [hres]
    have htr : jsTruthyIntOpt (some code) = true := by
      simp [jsTruthyIntOpt, hnz]
    have hinv : isValidCallResult (optIntValue (some code)) = false := by
      have e1 : ((1 : Int) == code) = false := by simp [Ne.symm h1]
      have e2 : ((2 : Int) == code) = false := by simp [Ne.symm h2]
      have e3 : ((3 : Int) == code) = false := by simp [Ne.symm h3]
      simp only [optIntValue, isValidCallResult, CALL_RESULT, List.find?]
      rw [e1, e2, e3]
      rfl
    rw [htr, hinv]
    rfl
  exact ⟨by simp [CallsAPI.create, hval, rejectsValidationNoNetwork],
         by simp [CallsAPI.update, hval, rejectsValidationNoNetwork]⟩

/-- Witness for the amended C1 at code 5. -/
theorem C1_amended_nonzero_invalid_result_witness :
    rejectsValidationNoNetwork
      (CallsAPI.create (okTransport JSVal.undef) 1
        { result := some 5, direction := none }) = true ∧
    rejectsValidationNoNetwork
      (CallsAPI.update (okTransport JSVal.undef) 1 2
        { result := some 5, direction := none }) = true :=
  C1_amended_nonzero_invalid_result (okTransport JSVal.undef) 1 2 5
    { result := some 5, direction := none }
    rfl (by decide) (by decide) (by decide) (by decide)

/-- Claim C2: for every search-alert number not in {1,2}, each of
`searchAlerts.update`, `delete`, `send` and `getRecent` fails with a
validation error before invoking the transport. -/
theorem C2_invalid_alert_number (t : Transport) (contactId alertNumber : Int)
    (alertData : AlertData) (h1 : alertNumber ≠ 1) (h2 : alertNumber ≠ 2) :
    rejectsValidationNoNetwork (SearchAlertsAPI.update t contactId alertNumber alertData) = true ∧
    rejectsValidationNoNetwork (SearchAlertsAPI.delete t contactId alertNumber) = true ∧
    rejectsValidationNoNetwork (SearchAlertsAPI.send t contactId alertNumber) = true ∧
    rejectsValidationNoNetwork (SearchAlertsAPI.getRecent t contactId alertNumber) = true := by
  have hval : isValidSearchAlertNumber alertNumber = false := by
    simp [isValidSearchAlertNumber, SEARCH_ALERT_NUMBER, h1, h2]
  refine ⟨?_, ?_, ?_, ?_⟩ <;>
    simp [SearchAlertsAPI.update, SearchAlertsAPI.delete, SearchAlertsAPI.send,
      SearchAlertsAPI.getRecent, hval, rejectsValidationNoNetwork]

/-- Witness for C2 at alert number 3. -/
theorem C2_invalid_alert_number_witness :
    rejectsValidationNoNetwork
      (SearchAlertsAPI.update (okTransport JSVal.undef) 1 3 { number := none }) = true ∧
    rejectsValidationNoNetwork (SearchAlertsAPI.delete (okTransport JSVal.undef) 1 3) = true ∧
    rejectsValidationNoNetwork (SearchAlertsAPI.send (okTransport JSVal.undef) 1 3) = true ∧
    rejectsValidationNoNetwork (SearchAlertsAPI.getRecent (okTransport JSVal.undef) 1 3) = true :=
  C2_invalid_alert_number (okTransport JSVal.undef) 1 3 { number := none }
    (by decide) (by decide)

/-- Claim C4: when the transport yields a non-2xx response with status
404 and body whose `message` field is `"Not found"`, `contacts.get`
rejects with a normalized error carrying `statusCode = 404`,
`message = "Not found"` and the upstream body as `responseData`. -/
theorem C4_contacts_get_404 (contactId : Int) (body : ResponseBody) (orig : String)
    (hmsg : body.message = some ("Not found")) :
    (ContactsAPI.get (fun _ => TransportResult.errorResponse 404 body orig) contactId).1 =
      Except.error (APIError.http
        { message := "Not found", statusCode := 404, responseData := some body }) := by
  simp [ContactsAPI.get, performRequest, interceptResponse, jsOrStr, hmsg]

/-- Witness for C4 with the body `{message: "Not found"}`. -/
theorem C4_contacts_get_404_witness :
    (ContactsAPI.get
        (fun _ => TransportResult.errorResponse 404 { message := some ("Not found") } ("boom"))
        7).1 =
      Except.error (APIError.http
        { message := "Not found", statusCode := 404
          responseData := some { message := some ("Not found") } }) :=
  C4_contacts_get_404 7 { message := some ("Not found") } ("boom") rfl

/-- Claim C5: on a transport where every request fails with the
request-sent-no-response condition, every mediator operation (all 30
operations across contacts, notes, calls, search alerts and misc)
rejects with the normalized error `statusCode = 503`,
`message = "No response received from KVCore API"` and no response
data; operations that validate first are taken at inputs passing their
validation. -/
theorem C5_no_response_503 (orig : String) (contactId actionId alertNumber : Int)
    (filters contactData tags tagNames textData questionData appointmentData noteData : JSVal)
    (callData : CallData) (alertData : AlertData) (emailData : EmailData)
    (scheduleData : ScheduleCallData) (viewData : ListingViewData)
    (hcall : CallsAPI.validateCallData callData = none)
    (halert : (!jsTruthyIntOpt alertData.number ||
        !isValidSearchAlertNumber (optIntValue alertData.number)) = false)
    (hnum : isValidSearchAlertNumber alertNumber = true)
    (hlead : jsTruthy scheduleData.leadId = true)
    (hview1 : jsTruthy viewData.lead_id = true)
    (hview2 : jsTruthy viewData.mls_id = true) :
    rejectsNoResponse503 (ContactsAPI.list (noResponseTransport orig) filters) ∧
    rejectsNoResponse503 (ContactsAPI.get (noResponseTransport orig) contactId) ∧
    rejectsNoResponse503 (ContactsAPI.create (noResponseTransport orig) contactData) ∧
    rejectsNoResponse503 (ContactsAPI.update (noResponseTransport orig) contactId contactData) ∧
    rejectsNoResponse503 (ContactsAPI.delete (noResponseTransport orig) contactId) ∧
    rejectsNoResponse503 (ContactsAPI.getTags (noResponseTransport orig) contactId) ∧
    rejectsNoResponse503 (ContactsAPI.addTags (noResponseTransport orig) contactId tags) ∧
    rejectsNoResponse503 (ContactsAPI.removeTags (noResponseTransport orig) contactId tagNames) ∧
    rejectsNoResponse503 (ContactsAPI.getListingViews (noResponseTransport orig) contactId) ∧
    rejectsNoResponse503 (ContactsAPI.getMarketReports (noResponseTransport orig) contactId) ∧
    rejectsNoResponse503 (ContactsAPI.sendEmail (noResponseTransport orig) contactId emailData) ∧
    rejectsNoResponse503 (ContactsAPI.sendText (noResponseTransport orig) contactId textData) ∧
    rejectsNoResponse503 (ContactsAPI.askQuestion (noResponseTransport orig) contactId questionData) ∧
    rejectsNoResponse503
      (ContactsAPI.requestAppointment (noResponseTransport orig) contactId appointmentData) ∧
    rejectsNoResponse503 (NotesAPI.list (noResponseTransport orig) contactId) ∧
    rejectsNoResponse503 (NotesAPI.get (noResponseTransport orig) contactId actionId) ∧
    rejectsNoResponse503 (NotesAPI.create (noResponseTransport orig) contactId noteData) ∧
    rejectsNoResponse503 (NotesAPI.update (noResponseTransport orig) contactId actionId noteData) ∧
    rejectsNoResponse503 (CallsAPI.list (noResponseTransport orig) contactId) ∧
    rejectsNoResponse503 (CallsAPI.get (noResponseTransport orig) contactId actionId) ∧
    rejectsNoResponse503 (CallsAPI.create (noResponseTransport orig) contactId callData) ∧
    rejectsNoResponse503 (CallsAPI.update (noResponseTransport orig) contactId actionId callData) ∧
    rejectsNoResponse503 (SearchAlertsAPI.list (noResponseTransport orig) contactId) ∧
    rejectsNoResponse503 (SearchAlertsAPI.create (noResponseTransport orig) contactId alertData) ∧
    rejectsNoResponse503
      (SearchAlertsAPI.update (noResponseTransport orig) contactId alertNumber alertData) ∧
    rejectsNoResponse503 (SearchAlertsAPI.delete (noResponseTransport orig) contactId alertNumber) ∧
    rejectsNoResponse503 (SearchAlertsAPI.send (noResponseTransport orig) contactId alertNumber) ∧
    rejectsNoResponse503
      (SearchAlertsAPI.getRecent (noResponseTransport orig) contactId alertNumber) ∧
    rejectsNoResponse503 (MiscAPI.scheduleCall (noResponseTransport orig) scheduleData) ∧
    rejectsNoResponse503 (MiscAPI.addListingView (noResponseTransport orig) viewData) := by
  have key : ∀ req : Request,
      rejectsNoResponse503 (performRequest (noResponseTransport orig) req) :=
    fun _ => rfl
  refine ⟨key _, key _, key _, key _, key _, key _, key _, key _, key _, key _, key _, key _,
    key _, key _, key _, key _, key _, key _, key _, key _, ?_, ?_, key _, ?_, ?_, ?_, ?_, ?_,
    ?_, ?_⟩
  · unfold CallsAPI.create
    rw [hcall]
    exact key _
  · unfold CallsAPI.update
    rw [hcall]
    exact key _
  · unfold SearchAlertsAPI.create
    rw [halert]
    exact key _
  · unfold SearchAlertsAPI.update
    rw [hnum]
    exact key _
  · unfold SearchAlertsAPI.delete
    rw [hnum]
    exact key _
  · unfold SearchAlertsAPI.send
    rw [hnum]
    exact key _
  · unfold SearchAlertsAPI.getRecent
    rw [hnum]
    exact key _
  · unfold MiscAPI.scheduleCall
    rw [hlead]
    exact key _
  · unfold MiscAPI.addListingView
    rw [hview1, hview2]
    exact key _

/-- Witness for C5 at concrete inputs passing every validation. -/
theorem C5_no_response_503_witness :
    rejectsNoResponse503 (ContactsAPI.list (noResponseTransport ("down")) JSVal.undef) ∧
    rejectsNoResponse503 (ContactsAPI.get (noResponseTransport ("down")) 1) ∧
    rejectsNoResponse503 (ContactsAPI.create (noResponseTransport ("down")) JSVal.undef) ∧
    rejectsNoResponse503 (ContactsAPI.update (noResponseTransport ("down")) 1 JSVal.undef) ∧
    rejectsNoResponse503 (ContactsAPI.delete (noResponseTransport ("down")) 1) ∧
    rejectsNoResponse503 (ContactsAPI.getTags (noResponseTransport ("down")) 1) ∧
    rejectsNoResponse503 (ContactsAPI.addTags (noResponseTransport ("down")) 1 JSVal.undef) ∧
    rejectsNoResponse503 (ContactsAPI.removeTags (noResponseTransport ("down")) 1 JSVal.undef) ∧
    rejectsNoResponse503 (ContactsAPI.getListingViews (noResponseTransport ("down")) 1) ∧
    rejectsNoResponse503 (ContactsAPI.getMarketReports (noResponseTransport ("down")) 1) ∧
    rejectsNoResponse503 (ContactsAPI.sendEmail (noResponseTransport ("down")) 1
      { subject := "s", message := "m" }) ∧
    rejectsNoResponse503 (ContactsAPI.sendText (noResponseTransport ("down")) 1 JSVal.undef) ∧
    rejectsNoResponse503 (ContactsAPI.askQuestion (noResponseTransport ("down")) 1 JSVal.undef) ∧
    rejectsNoResponse503
      (ContactsAPI.requestAppointment (noResponseTransport ("down")) 1 JSVal.undef) ∧
    rejectsNoResponse503 (NotesAPI.list (noResponseTransport ("down")) 1) ∧
    rejectsNoResponse503 (NotesAPI.get (noResponseTransport ("down")) 1 2) ∧
    rejectsNoResponse503 (NotesAPI.create (noResponseTransport ("down")) 1 JSVal.undef) ∧
    rejectsNoResponse503 (NotesAPI.update (noResponseTransport ("down")) 1 2 JSVal.undef) ∧
    rejectsNoResponse503 (CallsAPI.list (noResponseTransport ("down")) 1) ∧
    rejectsNoResponse503 (CallsAPI.get (noResponseTransport ("down")) 1 2) ∧
    rejectsNoResponse503 (CallsAPI.create (noResponseTransport ("down")) 1
      { result := some 1, direction := some ("outbound") }) ∧
    rejectsNoResponse503 (CallsAPI.update (noResponseTransport ("down")) 1 2
      { result := some 1, direction := some ("outbound") }) ∧
    rejectsNoResponse503 (SearchAlertsAPI.list (noResponseTransport ("down")) 1) ∧
    rejectsNoResponse503 (SearchAlertsAPI.create (noResponseTransport ("down")) 1
      { number := some 1 }) ∧
    rejectsNoResponse503 (SearchAlertsAPI.update (noResponseTransport ("down")) 1 2
      { number := some 1 }) ∧
    rejectsNoResponse503 (SearchAlertsAPI.delete (noResponseTransport ("down")) 1 2) ∧
    rejectsNoResponse503 (SearchAlertsAPI.send (noResponseTransport ("down")) 1 2) ∧
    rejectsNoResponse503 (SearchAlertsAPI.getRecent (noResponseTransport ("down")) 1 2) ∧
    rejectsNoResponse503 (MiscAPI.scheduleCall (noResponseTransport ("down"))
      { leadId := JSVal.num 7 }) ∧
    rejectsNoResponse503 (MiscAPI.addListingView (noResponseTransport ("down"))
      { lead_id := JSVal.num 7, mls_id := JSVal.str ("MLS1") }) :=
  C5_no_response_503 ("down") 1 2 2
    JSVal.undef JSVal.undef JSVal.undef JSVal.undef JSVal.undef JSVal.undef JSVal.undef
    JSVal.undef
    { result := some 1, direction := some ("outbound") } { number := some 1 }
    { subject := "s", message := "m" } { leadId := JSVal.num 7 }
    { lead_id := JSVal.num 7, mls_id := JSVal.str ("MLS1") }
    (by decide) (by decide) (by decide) (by decide) (by decide) (by decide)

/-- Claim C6 as stated: construction throws exactly when `bearerToken`
is empty/absent, and on success `baseURL`/`timeout` equal the supplied
values, with the documented defaults only when unset.  False: a
supplied `timeout` of 0 is falsy, so `||` replaces it with 30000. -/
theorem C6_counterexample :
    ¬ (∀ (cfg : ClientConfigInput),
        ((∃ e, KVCoreClient.make cfg = Except.error e) ↔
          (cfg.bearerToken = none ∨ cfg.bearerToken = some (""))) ∧
        ∀ c, KVCoreClient.make cfg = Except.ok c →
          c.config.baseURL = Option.getD cfg.baseURL DEFAULT_BASE_URL ∧
          c.config.timeout = Option.getD cfg.timeout 30000) := by
  intro h
  have hmk : KVCoreClient.make { timeout := some 0, bearerToken := some ("tok") } =
      Except.ok
        { config := { baseURL := DEFAULT_BASE_URL, timeout := 30000, bearerToken := "tok" }
          debug := false } := by decide
  have h0 := ((h { timeout := some 0, bearerToken := some ("tok") }).2 _ hmk).2
  exact absurd h0 (by decide)

/-- Claim C6 amended: construction fails exactly when `bearerToken` is
empty or absent; on success, `baseURL` is the supplied value when it is
a nonempty string and the default constant otherwise, and `timeout` is
the supplied value when nonzero and 30000 otherwise (JS `||`
defaulting treats a falsy supplied value as unset). -/
theorem C6_amended_construction (cfg : ClientConfigInput) :
    ((∃ e, KVCoreClient.make cfg = Except.error e) ↔
      (cfg.bearerToken = none ∨ cfg.bearerToken = some (""))) ∧
    ∀ c, KVCoreClient.make cfg = Except.ok c →
      c.config.baseURL =
        (match cfg.baseURL with
         | some s => if s = "" then DEFAULT_BASE_URL else s
         | none => DEFAULT_BASE_URL) ∧
      c.config.timeout =
        (match cfg.timeout with
         | some k => if k = 0 then 30000 else k
         | none => 30000) ∧
      c.config.bearerToken = optStrValue cfg.bearerToken := by
  constructor
  · constructor
    · intro ⟨e, he⟩
      unfold KVCoreClient.make at he
      split at he
      · rename_i htok
        revert htok
        match cfg.bearerToken with
        | none => intro _; exact Or.inl rfl
        | some s =>
          intro htok
          simp [jsTruthyStrOpt] at htok
          exact Or.inr (by rw [htok])
      · exact absurd he (by simp)
    · intro htok
      rcases htok with hnone | hempty
      · exact ⟨bearerTokenRequiredMessage, by unfold KVCoreClient.make; rw [hnone]; rfl⟩
      · exact ⟨bearerTokenRequiredMessage, by unfold KVCoreClient.make; rw [hempty]; rfl⟩
  · intro c hc
    unfold KVCoreClient.make at hc
    split at hc
    · exact absurd hc (by simp)
    · have hcfg := Except.ok.inj hc
      rw [← hcfg]
      exact ⟨by simp [jsOrStr], by simp [jsOrInt], rfl⟩

/-- Witness for the amended C6: an empty supplied `baseURL` (falls back
to the constant) and a nonzero supplied `timeout` (kept). -/
theorem C6_amended_construction_witness :
    ({ config := { baseURL := DEFAULT_BASE_URL, timeout := 5, bearerToken := "tok" }
       debug := false } : KVCoreClient).config.baseURL =
      (match (some ("") : Option String) with
       | some s => if s = "" then DEFAULT_BASE_URL else s
       | none => DEFAULT_BASE_URL) ∧
    ({ config := { baseURL := DEFAULT_BASE_URL, timeout := 5, bearerToken := "tok" }
       debug := false } : KVCoreClient).config.timeout =
      (match (some 5 : Option Int) with
       | some k => if k = 0 then 30000 else k
       | none => 30000) ∧
    ({ config := { baseURL := DEFAULT_BASE_URL, timeout := 5, bearerToken := "tok" }
       debug := false } : KVCoreClient).config.bearerToken = optStrValue (some ("tok")) :=
  (C6_amended_construction
      { baseURL := some (""), timeout := some 5, bearerToken := some ("tok") }).2
    { config := { baseURL := DEFAULT_BASE_URL, timeout := 5, bearerToken := "tok" }
      debug := false }
    (by decide)

/-- Claim C7: `contacts.sendEmail(42, {subject: "Hi", message: "Body"})`
issues exactly one request — a PUT to `/contact/42/email` with exactly
that body — and resolves to the transport's payload unmodified. -/
theorem C7_sendEmail_exact_request (payload : JSVal) :
    ContactsAPI.sendEmail (okTransport payload) 42 { subject := "Hi", message := "Body" } =
      (Except.ok payload,
       [{ method := Method.put
          url := "/contact/42/email"
          body := ReqBody.email { subject := "Hi", message := "Body" } }]) := rfl

/-- Claim C8: `enableDebug()` sets the debug flag and changes no other
field of the client's configuration, and applying it twice leaves the
flag true (idempotence, no error). -/
theorem C8_enableDebug_frame (c : KVCoreClient) :
    (KVCoreClient.enableDebug c).debug = true ∧
    (KVCoreClient.enableDebug c).config = c.config ∧
    KVCoreClient.enableDebug (KVCoreClient.enableDebug c) = KVCoreClient.enableDebug c :=
  ⟨rfl, rfl, rfl⟩

/-- Claim C10: immediately after any successful construction, the debug
flag is false. -/
theorem C10_debug_false_after_construction (cfg : ClientConfigInput) (c : KVCoreClient)
    (h : KVCoreClient.make cfg = Except.ok c) : c.debug = false := by
  unfold KVCoreClient.make at h
  split at h
  · exact absurd h (by simp)
  · injection h with h2
    rw [← h2]

/-- Witness for C10 at a minimal config. -/
theorem C10_debug_false_after_construction_witness :
    ({ config := { baseURL := DEFAULT_BASE_URL, timeout := 30000, bearerToken := "tok" }
       debug := false } : KVCoreClient).debug = false :=
  C10_debug_false_after_construction { bearerToken := some ("tok") }
    { config := { baseURL := DEFAULT_BASE_URL, timeout := 30000, bearerToken := "tok" }
      debug := false }
    (by decide)
